import Mathlib

/-!
Verification model of the customer-review classification service.

The definitions below are a shallow embedding of the repository sources:
  services/shared/preprocessor.py      (clean_text)
  services/shared/model.py             (get_classification)
  services/baseline_api/rest_server.py (classify, init_schema)
  services/optimized_api/grpc_server.py (ClassifierServicer.Classify)
  services/optimised_api/grpc_server.py (legacy ClassifierServicer.Classify)

Python machine-level aspects that the embedding makes explicit:
  - truthiness of dynamic JSON values (non-empty string, non-zero number);
  - str.strip removing ASCII whitespace on both ends;
  - exceptions as explicit outcome constructors, with each try/except
    modelled by the same case dispatch the interpreter performs;
  - random.uniform(a, b) as an oracle function applied to the two bounds;
  - the database as a list of rows, with ORDER BY processed_at DESC
    modelled by a stable insertion sort on the timestamp.
-/

/-- ASCII whitespace characters removed by Python str.strip and matched
by the regex class backslash-s. -/
def pyWS : List Char := [' ', '\t', '\n', '\x0b', '\x0c', '\r']

def isPyWS (c : Char) : Bool := pyWS.contains c

/-- Drop leading and trailing whitespace from a character list. -/
def stripList (l : List Char) : List Char :=
  ((l.dropWhile isPyWS).reverse.dropWhile isPyWS).reverse

/-- Python str.strip. -/
def pyStrip (s : String) : String := String.mk (stripList s.data)

/-- Python str.lower (ASCII). -/
def pyLower (s : String) : String := String.mk (s.data.map Char.toLower)

/-- Substring occurrence: Python needle in hay. -/
def subOf (needle : List Char) : List Char → Bool
  | [] => needle.isEmpty
  | c :: t => needle.isPrefixOf (c :: t) || subOf needle t

def strContains (hay needle : String) : Bool := subOf needle.data hay.data

/-- services/shared/preprocessor.py clean_text: lower-case, delete digits,
delete characters that are neither word characters nor whitespace, strip. -/
def clean_text (text : String) : String :=
  let t1 := pyLower text
  let t2 := String.mk (t1.data.filter (fun c => !c.isDigit))
  let t3 := String.mk (t2.data.filter (fun c => (c.isAlphanum || c == '_') || isPyWS c))
  pyStrip t3

def kwGreat : String := "great"
def kwFantastic : String := "fantastic"
def kwLove : String := "love"
def kwHappy : String := "happy"
def kwExcellent : String := "excellent"
def kwTerrible : String := "terrible"
def kwBad : String := "bad"
def kwUnhappy : String := "unhappy"
def kwProblem : String := "problem"
def kwHate : String := "hate"

def highValueWords : List String := [kwGreat, kwFantastic, kwLove, kwHappy, kwExcellent]
def atRiskWords : List String := [kwTerrible, kwBad, kwUnhappy, kwProblem, kwHate]

def segHighValue : String := "High-Value"
def segMidValue : String := "Mid-Value"
def segAtRisk : String := "At-Risk"

/-- Python round(x, 4): round to the nearest multiple of 1/10000. -/
def round4 (x : ℚ) : ℚ := ((round (x * 10000) : ℤ) : ℚ) / 10000

/-- services/shared/model.py get_classification.  The call
random.uniform(a, b) is modelled by the oracle draw applied to the two
bounds; theorems assume a ≤ draw a b ≤ b, which is the contract of
random.uniform. -/
def get_classification (text : String) (draw : ℚ → ℚ → ℚ) : String × ℚ :=
  let textLower := pyLower text
  if highValueWords.any (fun w => strContains textLower w) then
    (segHighValue, round4 (draw ((85 : ℚ) / 100) ((99 : ℚ) / 100)))
  else if atRiskWords.any (fun w => strContains textLower w) then
    (segAtRisk, round4 (draw ((75 : ℚ) / 100) ((95 : ℚ) / 100)))
  else
    (segMidValue, round4 (draw ((50 : ℚ) / 100) ((80 : ℚ) / 100)))

/-- A persisted row of the customer_segments table (the surrogate id is
omitted; processed_at is an abstract timestamp assigned at insert). -/
structure Row where
  customer_id : String
  segment : String
  confidence : ℚ
  processed_at : Nat
deriving DecidableEq

structure Store where
  rows : List Row
deriving DecidableEq

def emptyStore : Store := ⟨[]⟩

/-- ORDER BY processed_at DESC as a relation on rows. -/
def timeGe (a b : Row) : Prop := b.processed_at ≤ a.processed_at

instance : DecidableRel timeGe := fun a b => Nat.decLe b.processed_at a.processed_at

instance : IsTotal Row timeGe := ⟨fun a b => Nat.le_total b.processed_at a.processed_at⟩

instance : IsTrans Row timeGe := ⟨fun _ _ _ hab hbc => Nat.le_trans hbc hab⟩

def sortByTimeDesc (l : List Row) : List Row := List.insertionSort timeGe l

/-- The history read of the unit of work: SELECT processed_at, segment,
confidence FROM customer_segments WHERE customer_id = given
ORDER BY processed_at DESC LIMIT 5. -/
def recentHistoryQuery (st : Store) (cid : String) : List Row :=
  (sortByTimeDesc (st.rows.filter (fun r => r.customer_id == cid))).take 5

/-- INSERT INTO customer_segments (customer_id, segment, confidence),
with processed_at defaulted to the current time. -/
def insertRow (st : Store) (cid seg : String) (conf : ℚ) (now : Nat) : Store :=
  ⟨st.rows ++ [⟨cid, seg, conf, now⟩]⟩

/-- Dynamic JSON value as seen by the Flask handler. -/
inductive JVal where
  | jstr : String → JVal
  | jint : Int → JVal
  | jbool : Bool → JVal
  | jnull : JVal
deriving DecidableEq

/-- Python truthiness of a JSON value. -/
def JVal.truthy : JVal → Bool
  | .jstr s => !s.isEmpty
  | .jint n => n != 0
  | .jbool b => b
  | .jnull => false

def JVal.isStr : JVal → Bool
  | .jstr _ => true
  | _ => false

def lookupKey : List (String × JVal) → String → Option JVal
  | [], _ => none
  | (k, v) :: t, key => if k == key then some v else lookupKey t key

def fieldCustomerId : String := "customer_id"
def fieldReviewText : String := "review_text"

/-- The literal response messages of the two servers, one constructor per
source string; no constructor carries data, so every surfaced message is a
fixed generic constant. -/
inductive ErrMsg where
  | noJsonPayload
  | missingFields
  | mustBeStrings
  | customerIdEmpty
  | reviewTextEmpty
  | reviewTextTooLong
  | preprocessingFailed
  | modelClassificationFailed
  | dbConnUnavailable
  | dbConnFailed
  | dbQueryFailed
  | dbOperationFailed
  | internalServerError
  | cidNonEmptyString
  | cidWhitespace
  | rtNonEmptyString
  | rtWhitespace
deriving DecidableEq

structure SuccessBody where
  customer_id : String
  classification : String
  confidence : ℚ
  history_count : Nat
  recent_classifications : List Row
deriving DecidableEq

inductive RestOutcome where
  | ok : SuccessBody → RestOutcome
  | err : Nat → ErrMsg → RestOutcome
deriving DecidableEq

inductive ExcKind where
  | operational
  | programming
  | unexpected
deriving DecidableEq

/-- Failure oracle for one execution of the persistence unit of work. -/
inductive DbFault where
  | ok
  | poolError
  | insertFail : ExcKind → DbFault
  | selectFail : ExcKind → DbFault
deriving DecidableEq

/-- Observable pool and transaction events, in execution order. -/
inductive Ev where
  | acquire
  | rollbackAttempt
  | release
deriving DecidableEq

/-- Environment oracle for one request: the random.uniform draw, whether
each collaborator raises, the database fault, whether conn.rollback
itself raises, and the timestamp the store assigns. -/
structure Deps where
  draw : ℚ → ℚ → ℚ
  preprocFails : Bool
  modelFails : Bool
  fault : DbFault
  rollbackFails : Bool
  now : Nat

structure Config where
  maxTextLength : Nat

/-- MAX_TEXT_LENGTH defaults to 10000. -/
def cfgDefault : Config := ⟨10000⟩

inductive PyResult (α : Type) where
  | ok : α → PyResult α
  | exc : PyResult α

def connRollback (rollbackFails : Bool) : PyResult Unit :=
  if rollbackFails then .exc else .ok ()

/-- The bare except around conn.rollback: the attempt happens and any
exception it raises is discarded (pass), so control always continues. -/
def rollbackSwallowed (rollbackFails : Bool) : List Ev :=
  match connRollback rollbackFails with
  | .ok _ => [Ev.rollbackAttempt]
  | .exc => [Ev.rollbackAttempt]

def excStatusRest : ExcKind → Nat
  | .operational => 503
  | .programming => 500
  | .unexpected => 500

def excMsgRest : ExcKind → ErrMsg
  | .operational => .dbConnFailed
  | .programming => .dbQueryFailed
  | .unexpected => .dbOperationFailed

structure RestResult where
  response : RestOutcome
  store : Store
  acquired : Nat
  released : Nat
  trace : List Ev

def restPure (o : RestOutcome) (st : Store) : RestResult := ⟨o, st, 0, 0, []⟩

/-- rest_server.py classify, steps 3 and 4: the try/except/finally block
around getconn, INSERT plus commit, SELECT LIMIT 5, rollback in the
psycopg2 handlers, putconn in the finally clause. -/
def restDbSection (cid seg : String) (conf : ℚ) (st : Store) (deps : Deps) : RestResult :=
  match deps.fault with
  | .poolError =>
      -- getconn raised PoolError: the handler returns 503; the finally
      -- clause sees conn = None, so nothing is released
      ⟨.err 503 .dbConnUnavailable, st, 0, 0, []⟩
  | .ok =>
      let st2 := insertRow st cid seg conf deps.now
      let rows := recentHistoryQuery st2 cid
      ⟨.ok ⟨cid, seg, conf, rows.length, rows.take 2⟩, st2, 1, 1, [Ev.acquire, Ev.release]⟩
  | .insertFail k =>
      -- exception before commit: the transaction is discarded, rollback is
      -- attempted with its own failure swallowed, putconn runs in finally
      ⟨.err (excStatusRest k) (excMsgRest k), st, 1, 1,
        Ev.acquire :: rollbackSwallowed deps.rollbackFails ++ [Ev.release]⟩
  | .selectFail k =>
      -- the insert was already committed, then the history select raised
      ⟨.err (excStatusRest k) (excMsgRest k), insertRow st cid seg conf deps.now, 1, 1,
        Ev.acquire :: rollbackSwallowed deps.rollbackFails ++ [Ev.release]⟩

/-- rest_server.py classify, steps 1 and 2 after validation: preprocessing
and model inference, each guarded by its own except clause, then the
database unit of work. -/
def restProcess (cid rt : String) (st : Store) (deps : Deps) : RestResult :=
  if deps.preprocFails then restPure (.err 500 .preprocessingFailed) st
  else
    let cleaned := clean_text rt
    if deps.modelFails then restPure (.err 500 .modelClassificationFailed) st
    else
      let sc := get_classification cleaned deps.draw
      restDbSection cid sc.1 sc.2 st deps

/-- rest_server.py classify.  The payload argument is the parsed JSON
body; none models request.json = None.  The duplicated isinstance test on
customer_id is reproduced exactly as written on line 142 of the source:
the type of review_text is never tested there. -/
def classify (cfg : Config) (payload : Option (List (String × JVal))) (st : Store)
    (deps : Deps) : RestResult :=
  match payload with
  | none => restPure (.err 400 .noJsonPayload) st
  | some data =>
    match lookupKey data fieldCustomerId, lookupKey data fieldReviewText with
    | none, _ => restPure (.err 400 .missingFields) st
    | some _, none => restPure (.err 400 .missingFields) st
    | some cidV, some rtV =>
      if !cidV.isStr || !cidV.isStr then restPure (.err 400 .mustBeStrings) st
      else
        match cidV with
        | .jstr cid =>
          if cid.isEmpty || (pyStrip cid).isEmpty then restPure (.err 400 .customerIdEmpty) st
          else if !rtV.truthy then restPure (.err 400 .reviewTextEmpty) st
          else
            match rtV with
            | .jstr rt =>
              if (pyStrip rt).isEmpty then restPure (.err 400 .reviewTextEmpty) st
              else if cfg.maxTextLength < rt.length then
                restPure (.err 400 .reviewTextTooLong) st
              else restProcess cid rt st deps
            | _ =>
              -- review_text is truthy and not a string: review_text.strip()
              -- raises AttributeError, caught by no handler in classify;
              -- the app-level errorhandler(500) builds the response
              restPure (.err 500 .internalServerError) st
        | _ =>
          -- dead branch: the guard above established cidV.isStr = true
          restPure (.err 500 .internalServerError) st

/-- RPC status codes used by the two gRPC variants. -/
inductive RpcCode where
  | invalidArgument
  | internal
  | resourceExhausted
  | unavailable
deriving DecidableEq

structure GrpcBody where
  customer_id : String
  segment : String
  confidence : ℚ
  history_count : Nat
  recent_classifications : List Row
deriving DecidableEq

/-- Outcome of one gRPC handler call: a returned response, a terminated
RPC via context.abort, or an exception that escaped the handler. -/
inductive GrpcOutcome where
  | ok : GrpcBody → GrpcOutcome
  | abort : RpcCode → ErrMsg → GrpcOutcome
  | raised : GrpcOutcome
deriving DecidableEq

/-- Exception classes that can reach the outer except clauses of the
database try block: the plain Exception raised by context.abort, or a
psycopg2 error of one of the three handled kinds. -/
inductive PyExc where
  | abortExc : RpcCode → ErrMsg → PyExc
  | dbExc : ExcKind → PyExc
deriving DecidableEq

structure GrpcResult where
  response : GrpcOutcome
  store : Store
  acquired : Nat
  released : Nat
  trace : List Ev

/-- The except clauses of the database try block in
optimized_api/grpc_server.py (OperationalError, ProgrammingError, bare
Exception), each followed by the finally clause.  grpc
ServicerContext.abort terminates the RPC by raising a plain Exception, so
an abortExc raised inside the try body matches only the generic except
Exception clause, which treats it as an unexpected error and aborts again
with INTERNAL; the second abort is the one the client observes. -/
def grpcCatch (e : PyExc) (connHeld : Bool) (rollbackFails : Bool) (st : Store) : GrpcResult :=
  let n : Nat := if connHeld then 1 else 0
  let tr : List Ev :=
    if connHeld then Ev.acquire :: rollbackSwallowed rollbackFails ++ [Ev.release] else []
  match e with
  | .dbExc .operational => ⟨.abort .unavailable .dbConnFailed, st, n, n, tr⟩
  | .dbExc .programming => ⟨.abort .internal .dbQueryFailed, st, n, n, tr⟩
  | .dbExc .unexpected => ⟨.abort .internal .dbOperationFailed, st, n, n, tr⟩
  | .abortExc _ _ => ⟨.abort .internal .dbOperationFailed, st, n, n, tr⟩

/-- optimized_api/grpc_server.py Classify, database section: getconn with
the PoolError handler calling context.abort(RESOURCE_EXHAUSTED), the
insert plus commit, the LIMIT 5 history select, the outer except clauses
and the finally clause. -/
def grpcDbSection (cid seg : String) (conf : ℚ) (st : Store) (deps : Deps) : GrpcResult :=
  match deps.fault with
  | .poolError =>
      -- getconn raises PoolError; its handler calls context.abort with
      -- RESOURCE_EXHAUSTED, which raises and is dispatched to the outer
      -- except clauses while conn is still None
      grpcCatch (.abortExc .resourceExhausted .dbConnUnavailable) false deps.rollbackFails st
  | .ok =>
      let st2 := insertRow st cid seg conf deps.now
      let rows := recentHistoryQuery st2 cid
      ⟨.ok ⟨cid, seg, conf, rows.length, rows.take 2⟩, st2, 1, 1, [Ev.acquire, Ev.release]⟩
  | .insertFail k => grpcCatch (.dbExc k) true deps.rollbackFails st
  | .selectFail k => grpcCatch (.dbExc k) true deps.rollbackFails (insertRow st cid seg conf deps.now)

def grpcPure (o : GrpcOutcome) (st : Store) : GrpcResult := ⟨o, st, 0, 0, []⟩

/-- optimized_api/grpc_server.py ClassifierServicer.Classify.  Protobuf
string fields are always str, so the isinstance tests on lines 124 and 135
cannot fail; the reachable validation conditions are the emptiness and
length checks.  optimizer.clean_text is the compiled build of the shared
preprocessor (spec section 1 treats both as the same collaborator). -/
def Classify (cfg : Config) (cid rt : String) (st : Store) (deps : Deps) : GrpcResult :=
  if cid.isEmpty then grpcPure (.abort .invalidArgument .cidNonEmptyString) st
  else if (pyStrip cid).isEmpty then grpcPure (.abort .invalidArgument .cidWhitespace) st
  else if rt.isEmpty then grpcPure (.abort .invalidArgument .rtNonEmptyString) st
  else if (pyStrip rt).isEmpty then grpcPure (.abort .invalidArgument .rtWhitespace) st
  else if cfg.maxTextLength < rt.length then
    grpcPure (.abort .invalidArgument .reviewTextTooLong) st
  else if deps.preprocFails then grpcPure (.abort .internal .preprocessingFailed) st
  else
    let cleaned := clean_text rt
    if deps.modelFails then grpcPure (.abort .internal .modelClassificationFailed) st
    else
      let sc := get_classification cleaned deps.draw
      grpcDbSection cid sc.1 sc.2 st deps

/-- optimised_api/grpc_server.py ClassifierServicer.Classify (legacy
variant): no validation, no database access, and no try/except around the
two collaborator calls, so a collaborator exception escapes the handler
(raised); response fields the source leaves unset take the protobuf
defaults zero and empty list. -/
def ClassifyLegacy (cid rt : String) (preprocFails modelFails : Bool)
    (draw : ℚ → ℚ → ℚ) : GrpcOutcome :=
  if preprocFails then .raised
  else
    let cleaned := clean_text rt
    if modelFails then .raised
    else
      let sc := get_classification cleaned draw
      .ok ⟨cid, sc.1, sc.2, 0, []⟩

/-- Observable schema-level state of the store: whether the table and the
index exist, plus the persisted rows. -/
structure SchemaState where
  hasTable : Bool
  hasIndex : Bool
  rows : List Row
deriving DecidableEq

inductive SchemaFault where
  | ok
  | getconnError
  | execError
deriving DecidableEq

structure SchemaResult where
  state : SchemaState
  exited : Bool
  acquired : Nat
  released : Nat
deriving DecidableEq

/-- rest_server.py init_schema: CREATE TABLE IF NOT EXISTS and CREATE
INDEX IF NOT EXISTS in one transaction, every exception caught and logged
(never re-raised, no sys.exit), putconn in the finally clause.  A fault
before the commit discards the transactional DDL, leaving the state as it
was; the IF NOT EXISTS forms preserve an existing table and its rows. -/
def init_schema (s : SchemaState) (f : SchemaFault) : SchemaResult :=
  match f with
  | .getconnError => ⟨s, false, 0, 0⟩
  | .execError => ⟨s, false, 1, 1⟩
  | .ok => ⟨⟨true, true, s.rows⟩, false, 1, 1⟩

/-- Segment and confidence the pipeline computes for a given review text,
from preprocessing followed by model inference. -/
def classifiedSeg (rt : String) (draw : ℚ → ℚ → ℚ) : String :=
  (get_classification (clean_text rt) draw).1

def classifiedConf (rt : String) (draw : ℚ → ℚ → ℚ) : ℚ :=
  (get_classification (clean_text rt) draw).2

/-- Store after the unit of work committed the insert for this request. -/
def committedStore (st : Store) (cid rt : String) (deps : Deps) : Store :=
  insertRow st cid (classifiedSeg rt deps.draw) (classifiedConf rt deps.draw) deps.now

/-- The rows the LIMIT 5 history read returns after the insert. -/
def fetchedHistory (st : Store) (cid rt : String) (deps : Deps) : List Row :=
  recentHistoryQuery (committedStore st cid rt deps) cid

/-- The row this request inserts. -/
def ownRow (cid rt : String) (deps : Deps) : Row :=
  ⟨cid, classifiedSeg rt deps.draw, classifiedConf rt deps.draw, deps.now⟩

def demoDraw : ℚ → ℚ → ℚ := fun a _ => a
def demoCid : String := "u1"
def demoText : String := "ok"
def demoDepsOk : Deps := ⟨demoDraw, false, false, .ok, false, 10⟩
def demoDepsPool : Deps := ⟨demoDraw, false, false, .poolError, false, 10⟩
def demoDepsPre : Deps := ⟨demoDraw, true, false, .ok, false, 10⟩
def demoPayload (v : JVal) : List (String × JVal) :=
  [(fieldCustomerId, .jstr demoCid), (fieldReviewText, v)]

/-- Store holding four earlier rows for the demo customer. -/
def demoStore4 : Store :=
  ⟨[⟨demoCid, segMidValue, 1 / 2, 1⟩, ⟨demoCid, segMidValue, 1 / 2, 2⟩,
    ⟨demoCid, segMidValue, 1 / 2, 3⟩, ⟨demoCid, segMidValue, 1 / 2, 4⟩]⟩

/-- Store holding two earlier rows for the demo customer, at times 1 and 2. -/
def demoStore2 : Store :=
  ⟨[⟨demoCid, segMidValue, 1 / 2, 1⟩, ⟨demoCid, segMidValue, 1 / 2, 2⟩]⟩

theorem round4_close (x : ℚ) : |round4 x - x| ≤ 1 / 20000 := by
  have h : |x * 10000 - ((round (x * 10000) : ℤ) : ℚ)| ≤ 1 / 2 := abs_sub_round (x * 10000)
  have h2 : round4 x - x = -(x * 10000 - ((round (x * 10000) : ℤ) : ℚ)) / 10000 := by
    unfold round4; ring
  rw [h2, abs_div, abs_neg]
  rw [abs_of_nonneg (by norm_num : (0 : ℚ) ≤ 10000)]
  linarith

theorem round4_range {a b x : ℚ} (hax : a ≤ x) (hxb : x ≤ b)
    (ha : 1 / 20000 ≤ a) (hb : b ≤ 1 - 1 / 20000) :
    0 ≤ round4 x ∧ round4 x ≤ 1 := by
  have h := round4_close x
  rw [abs_le] at h
  constructor <;> linarith [h.1, h.2]

/-- Every draw of the mock model lands in a keyword-dependent interval
inside the unit interval, and every segment label is non-empty. -/
theorem get_classification_spec (text : String) (draw : ℚ → ℚ → ℚ)
    (hdraw : ∀ a b : ℚ, a ≤ b → a ≤ draw a b ∧ draw a b ≤ b) :
    (0 ≤ (get_classification text draw).2 ∧ (get_classification text draw).2 ≤ 1) ∧
      (get_classification text draw).1 ≠ "" := by
  unfold get_classification
  dsimp only
  split
  · have h := hdraw ((85 : ℚ) / 100) ((99 : ℚ) / 100) (by norm_num)
    exact ⟨round4_range h.1 h.2 (by norm_num) (by norm_num), (by decide : segHighValue ≠ "")⟩
  · split
    · have h := hdraw ((75 : ℚ) / 100) ((95 : ℚ) / 100) (by norm_num)
      exact ⟨round4_range h.1 h.2 (by norm_num) (by norm_num), (by decide : segAtRisk ≠ "")⟩
    · have h := hdraw ((50 : ℚ) / 100) ((80 : ℚ) / 100) (by norm_num)
      exact ⟨round4_range h.1 h.2 (by norm_num) (by norm_num), (by decide : segMidValue ≠ "")⟩

/-- Reduction of the HTTP handler on a payload that passes validation. -/
theorem classify_valid_eq (cfg : Config) (cid rt : String) (st : Store) (deps : Deps)
    (h1 : cid ≠ "") (h2 : pyStrip cid ≠ "") (h3 : rt ≠ "") (h4 : pyStrip rt ≠ "")
    (h5 : rt.length ≤ cfg.maxTextLength) :
    classify cfg (some [(fieldCustomerId, JVal.jstr cid), (fieldReviewText, JVal.jstr rt)]) st deps
      = restProcess cid rt st deps := by
  unfold classify
  simp only [lookupKey]
  simp only [show (fieldCustomerId == fieldCustomerId) = true by rfl,
    show (fieldCustomerId == fieldReviewText) = false by rfl,
    show (fieldReviewText == fieldReviewText) = true by rfl]
  simp [JVal.isStr, JVal.truthy, String.isEmpty_iff, h1, h2, h3, h4, Nat.not_lt.mpr h5]

/-- Reduction of the HTTP handler tail when both collaborators succeed and
the unit of work sees no fault. -/
theorem restProcess_ok_eq (cid rt : String) (st : Store) (deps : Deps)
    (hp : deps.preprocFails = false) (hm : deps.modelFails = false)
    (hf : deps.fault = DbFault.ok) :
    restProcess cid rt st deps
      = ⟨RestOutcome.ok ⟨cid, classifiedSeg rt deps.draw, classifiedConf rt deps.draw,
            (fetchedHistory st cid rt deps).length, (fetchedHistory st cid rt deps).take 2⟩,
          committedStore st cid rt deps, 1, 1, [Ev.acquire, Ev.release]⟩ := by
  unfold restProcess restDbSection
  rw [hp, hm, hf]
  simp [classifiedSeg, classifiedConf, fetchedHistory, committedStore]

/-- Reduction of the RPC handler on arguments that pass validation. -/
theorem Classify_valid_eq (cfg : Config) (cid rt : String) (st : Store) (deps : Deps)
    (h1 : cid ≠ "") (h2 : pyStrip cid ≠ "") (h3 : rt ≠ "") (h4 : pyStrip rt ≠ "")
    (h5 : rt.length ≤ cfg.maxTextLength) :
    Classify cfg cid rt st deps
      = (if deps.preprocFails then grpcPure (.abort .internal .preprocessingFailed) st
         else if deps.modelFails then grpcPure (.abort .internal .modelClassificationFailed) st
         else grpcDbSection cid (classifiedSeg rt deps.draw) (classifiedConf rt deps.draw) st deps) := by
  unfold Classify
  simp [String.isEmpty_iff, h1, h2, h3, h4, Nat.not_lt.mpr h5, classifiedSeg, classifiedConf]

/-- Reduction of the RPC handler when validation passes, both
collaborators succeed and the unit of work sees no fault. -/
theorem Classify_ok_eq (cfg : Config) (cid rt : String) (st : Store) (deps : Deps)
    (h1 : cid ≠ "") (h2 : pyStrip cid ≠ "") (h3 : rt ≠ "") (h4 : pyStrip rt ≠ "")
    (h5 : rt.length ≤ cfg.maxTextLength)
    (hp : deps.preprocFails = false) (hm : deps.modelFails = false)
    (hf : deps.fault = DbFault.ok) :
    Classify cfg cid rt st deps
      = ⟨GrpcOutcome.ok ⟨cid, classifiedSeg rt deps.draw, classifiedConf rt deps.draw,
            (fetchedHistory st cid rt deps).length, (fetchedHistory st cid rt deps).take 2⟩,
          committedStore st cid rt deps, 1, 1, [Ev.acquire, Ev.release]⟩ := by
  rw [Classify_valid_eq cfg cid rt st deps h1 h2 h3 h4 h5]
  simp only [hp, hm, Bool.false_eq_true, if_false]
  unfold grpcDbSection
  rw [hf]
  simp [classifiedSeg, classifiedConf, fetchedHistory, committedStore]

theorem restDbSection_balanced (cid seg : String) (conf : ℚ) (st : Store) (deps : Deps) :
    (restDbSection cid seg conf st deps).released = (restDbSection cid seg conf st deps).acquired := by
  unfold restDbSection
  rcases deps.fault with _ | _ | k | k <;> rfl

theorem restProcess_balanced (cid rt : String) (st : Store) (deps : Deps) :
    (restProcess cid rt st deps).released = (restProcess cid rt st deps).acquired := by
  unfold restProcess
  split
  · rfl
  · split
    · rfl
    · exact restDbSection_balanced _ _ _ _ _

theorem classify_balanced (cfg : Config) (payload : Option (List (String × JVal)))
    (st : Store) (deps : Deps) :
    (classify cfg payload st deps).released = (classify cfg payload st deps).acquired := by
  unfold classify
  split
  · rfl
  · split
    · rfl
    · rfl
    · split
      · rfl
      · split
        · split
          · rfl
          · split
            · rfl
            · split
              · split
                · rfl
                · split
                  · rfl
                  · exact restProcess_balanced _ _ _ _
              · rfl
        · rfl

theorem grpcCatch_balanced (e : PyExc) (c rb : Bool) (st : Store) :
    (grpcCatch e c rb st).released = (grpcCatch e c rb st).acquired := by
  unfold grpcCatch
  rcases e with ⟨_, _⟩ | k
  · rfl
  · rcases k <;> rfl

theorem grpcDbSection_balanced (cid seg : String) (conf : ℚ) (st : Store) (deps : Deps) :
    (grpcDbSection cid seg conf st deps).released = (grpcDbSection cid seg conf st deps).acquired := by
  unfold grpcDbSection
  rcases deps.fault with _ | _ | k | k
  · rfl
  · exact grpcCatch_balanced _ _ _ _
  · exact grpcCatch_balanced _ _ _ _
  · exact grpcCatch_balanced _ _ _ _

theorem Classify_balanced (cfg : Config) (cid rt : String) (st : Store) (deps : Deps) :
    (Classify cfg cid rt st deps).released = (Classify cfg cid rt st deps).acquired := by
  unfold Classify
  split
  · rfl
  · split
    · rfl
    · split
      · rfl
      · split
        · rfl
        · split
          · rfl
          · split
            · rfl
            · split
              · rfl
              · exact grpcDbSection_balanced _ _ _ _ _

theorem recentHistoryQuery_sorted (st : Store) (cid : String) :
    (recentHistoryQuery st cid).Pairwise timeGe :=
  List.Pairwise.take (List.sorted_insertionSort timeGe _)

theorem recentHistoryQuery_len (st : Store) (cid : String) :
    (recentHistoryQuery st cid).length ≤ 5 :=
  List.length_take_le 5 _

/-- In a descending-sorted list whose member x is strictly newer than every
other member, x is the head. -/
theorem cons_eq_of_strict_max {x h : Row} {t : List Row}
    (hx : x ∈ h :: t) (hs : (h :: t).Pairwise timeGe)
    (hmax : ∀ y ∈ h :: t, y ≠ x → y.processed_at < x.processed_at) : h = x := by
  by_contra hne
  have hxt : x ∈ t := by
    rcases List.mem_cons.mp hx with h1 | h1
    · exact absurd h1.symm hne
    · exact h1
  have h1 : timeGe h x := (List.pairwise_cons.mp hs).1 x hxt
  have h2 : h.processed_at < x.processed_at := hmax h (List.mem_cons_self h t) hne
  unfold timeGe at h1
  omega

/-- When the inserted timestamp is strictly newer than every stored row,
the history read returns the inserted row first. -/
theorem query_head_newest (st : Store) (cid seg : String) (conf : ℚ) (now : Nat)
    (hfresh : ∀ r ∈ st.rows, r.processed_at < now) :
    ∃ t, recentHistoryQuery (insertRow st cid seg conf now) cid
      = (⟨cid, seg, conf, now⟩ : Row) :: t := by
  have hxfl : (⟨cid, seg, conf, now⟩ : Row) ∈
      (insertRow st cid seg conf now).rows.filter (fun r => r.customer_id == cid) := by
    apply List.mem_filter.mpr
    refine ⟨?_, ?_⟩
    · simp [insertRow]
    · simp
  have hperm : (sortByTimeDesc
      ((insertRow st cid seg conf now).rows.filter (fun r => r.customer_id == cid))).Perm
      ((insertRow st cid seg conf now).rows.filter (fun r => r.customer_id == cid)) :=
    List.perm_insertionSort timeGe _
  have hxs : (⟨cid, seg, conf, now⟩ : Row) ∈ sortByTimeDesc
      ((insertRow st cid seg conf now).rows.filter (fun r => r.customer_id == cid)) :=
    hperm.mem_iff.mpr hxfl
  have hsorted : (sortByTimeDesc
      ((insertRow st cid seg conf now).rows.filter (fun r => r.customer_id == cid))).Pairwise timeGe :=
    List.sorted_insertionSort timeGe _
  have hmax : ∀ y ∈ sortByTimeDesc
      ((insertRow st cid seg conf now).rows.filter (fun r => r.customer_id == cid)),
      y ≠ (⟨cid, seg, conf, now⟩ : Row) →
        y.processed_at < (⟨cid, seg, conf, now⟩ : Row).processed_at := by
    intro y hy hne
    have hyfl := hperm.mem_iff.mp hy
    have hyrows : y ∈ (insertRow st cid seg conf now).rows := (List.mem_filter.mp hyfl).1
    rcases List.mem_append.mp hyrows with hmem | hmem
    · exact hfresh y hmem
    · simp only [List.mem_singleton] at hmem
      exact absurd hmem hne
  obtain ⟨h, t, hht⟩ : ∃ h t, sortByTimeDesc
      ((insertRow st cid seg conf now).rows.filter (fun r => r.customer_id == cid)) = h :: t := by
    cases hc : sortByTimeDesc
        ((insertRow st cid seg conf now).rows.filter (fun r => r.customer_id == cid)) with
    | nil => rw [hc] at hxs; cases hxs
    | cons h t => exact ⟨h, t, rfl⟩
  rw [hht] at hxs hsorted hmax
  have heq := cons_eq_of_strict_max hxs hsorted hmax
  refine ⟨t.take 4, ?_⟩
  unfold recentHistoryQuery
  rw [hht, heq]
  rfl

/-- C1: the claim says a request whose review_text is present but not a
string is rejected with the type-mismatch client error 400. In the code
the isinstance test on line 142 checks customer_id twice and never checks
review_text, so a request with customer_id a valid string and review_text
the number 7 slips past the type check, review_text.strip() raises
AttributeError, and the handler answers 500 via the app errorhandler, not
400; no row is inserted. -/
theorem nonStringReviewTextBypassesTypeCheck :
    (classify cfgDefault (some (demoPayload (JVal.jint 7))) emptyStore demoDepsOk).response
        = RestOutcome.err 500 ErrMsg.internalServerError
      ∧ (classify cfgDefault (some (demoPayload (JVal.jint 7))) emptyStore demoDepsOk).store
        = emptyStore
      ∧ RestOutcome.err 500 ErrMsg.internalServerError
        ≠ RestOutcome.err 400 ErrMsg.mustBeStrings := by
  exact ⟨by decide, by decide, by decide⟩

/-- C2: on every execution of either handler, over every payload, store
and fault (pool error, connection, query or unexpected error, rollback
failure included), the number of connections released equals the number
acquired. -/
theorem connectionReleaseBalanced (cfg : Config) (payload : Option (List (String × JVal)))
    (cid rt : String) (st stg : Store) (deps depsg : Deps) :
    (classify cfg payload st deps).released = (classify cfg payload st deps).acquired
      ∧ (Classify cfg cid rt stg depsg).released = (Classify cfg cid rt stg depsg).acquired :=
  ⟨classify_balanced cfg payload st deps, Classify_balanced cfg cid rt stg depsg⟩

/-- C3: the claim says pool exhaustion surfaces as RESOURCE_EXHAUSTED. In
the code the PoolError handler calls context.abort(RESOURCE_EXHAUSTED)
inside the outer try block; the plain Exception that abort raises is
caught by the generic except Exception clause, which aborts again with
INTERNAL, and that is the status the client observes. -/
theorem poolExhaustedSurfacesInternal :
    (Classify cfgDefault demoCid demoText emptyStore demoDepsPool).response
        = GrpcOutcome.abort RpcCode.internal ErrMsg.dbOperationFailed
      ∧ ∀ m : ErrMsg, (Classify cfgDefault demoCid demoText emptyStore demoDepsPool).response
        ≠ GrpcOutcome.abort RpcCode.resourceExhausted m := by
  have h : (Classify cfgDefault demoCid demoText emptyStore demoDepsPool).response
      = GrpcOutcome.abort RpcCode.internal ErrMsg.dbOperationFailed := by decide
  refine ⟨h, ?_⟩
  intro m hm
  rw [h] at hm
  simp at hm

/-- C4: the claim says the type-mismatch rule is applied to both fields
before the emptiness rule, first failure wins. With customer_id a valid
string and review_text the number 0 (falsy, non-string), the type rule
should fire, but the code (whose isinstance test only covers customer_id)
reports the empty-value failure instead. -/
theorem validationOrderViolatedOnFalsyNonString :
    (classify cfgDefault (some (demoPayload (JVal.jint 0))) emptyStore demoDepsOk).response
        = RestOutcome.err 400 ErrMsg.reviewTextEmpty
      ∧ RestOutcome.err 400 ErrMsg.reviewTextEmpty
        ≠ RestOutcome.err 400 ErrMsg.mustBeStrings := by
  exact ⟨by decide, by decide⟩

/-- C5: on every persistence failure after the connection was acquired
(insert or select stage, any exception kind), both handlers attempt a
rollback before the release, and the whole result is unchanged whether or
not the rollback itself fails, because the bare except swallows it. -/
theorem rollbackBeforeReleaseSwallowed (cid seg : String) (conf : ℚ) (st : Store)
    (draw : ℚ → ℚ → ℚ) (pf mf rb : Bool) (now : Nat) (k : ExcKind) :
    ((restDbSection cid seg conf st ⟨draw, pf, mf, DbFault.insertFail k, rb, now⟩).trace
        = [Ev.acquire, Ev.rollbackAttempt, Ev.release]
      ∧ (restDbSection cid seg conf st ⟨draw, pf, mf, DbFault.selectFail k, rb, now⟩).trace
        = [Ev.acquire, Ev.rollbackAttempt, Ev.release])
    ∧ ((grpcDbSection cid seg conf st ⟨draw, pf, mf, DbFault.insertFail k, rb, now⟩).trace
        = [Ev.acquire, Ev.rollbackAttempt, Ev.release]
      ∧ (grpcDbSection cid seg conf st ⟨draw, pf, mf, DbFault.selectFail k, rb, now⟩).trace
        = [Ev.acquire, Ev.rollbackAttempt, Ev.release])
    ∧ (restDbSection cid seg conf st ⟨draw, pf, mf, DbFault.insertFail k, rb, now⟩
        = restDbSection cid seg conf st ⟨draw, pf, mf, DbFault.insertFail k, false, now⟩
      ∧ restDbSection cid seg conf st ⟨draw, pf, mf, DbFault.selectFail k, rb, now⟩
        = restDbSection cid seg conf st ⟨draw, pf, mf, DbFault.selectFail k, false, now⟩
      ∧ grpcDbSection cid seg conf st ⟨draw, pf, mf, DbFault.insertFail k, rb, now⟩
        = grpcDbSection cid seg conf st ⟨draw, pf, mf, DbFault.insertFail k, false, now⟩
      ∧ grpcDbSection cid seg conf st ⟨draw, pf, mf, DbFault.selectFail k, rb, now⟩
        = grpcDbSection cid seg conf st ⟨draw, pf, mf, DbFault.selectFail k, false, now⟩) := by
  refine ⟨⟨?_, ?_⟩, ⟨?_, ?_⟩, ?_, ?_, ?_, ?_⟩ <;> cases rb <;> cases k <;> rfl

/-- C9: running init_schema twice in a row leaves the store (table,
index, rows) in the same observable state as running it once, and on any
fault the function returns normally (logged only, no process exit). -/
theorem ensureSchemaIdempotentNonFatal (s : SchemaState) (f : SchemaFault) :
    (init_schema (init_schema s SchemaFault.ok).state SchemaFault.ok).state
        = (init_schema s SchemaFault.ok).state
      ∧ (init_schema s f).exited = false := by
  refine ⟨rfl, ?_⟩
  cases f <;> rfl

/-- C6 counterexample: the claim says the response exposes at most the 2
most-recent prior records. On a store with no prior rows at all, the
single exposed record is the row this very request inserted, so the
exposed records are not limited to prior ones. -/
theorem recentExposesOwnInsertedRow :
    (classify cfgDefault (some (demoPayload (JVal.jstr demoText))) emptyStore demoDepsOk).response
        = RestOutcome.ok ⟨demoCid, segMidValue, classifiedConf demoText demoDraw, 1,
            [⟨demoCid, segMidValue, classifiedConf demoText demoDraw, 10⟩]⟩
      ∧ emptyStore.rows = [] := by
  exact ⟨rfl, rfl⟩

/-- C6 amended: on every successful request of either adapter, the
history read fetches at most 5 rows for that customer ordered by
processed_at descending with the newest first, the row inserted by this
same request heads the fetched list, and the response exposes its first 2
entries. -/
theorem historyReadOrderedCappedAmended (cfg : Config) (cid rt : String) (st : Store)
    (deps : Deps)
    (h1 : cid ≠ "") (h2 : pyStrip cid ≠ "") (h3 : rt ≠ "") (h4 : pyStrip rt ≠ "")
    (h5 : rt.length ≤ cfg.maxTextLength)
    (hp : deps.preprocFails = false) (hm : deps.modelFails = false)
    (hf : deps.fault = DbFault.ok)
    (hfresh : ∀ r ∈ st.rows, r.processed_at < deps.now) :
    ∃ t, (classify cfg (some [(fieldCustomerId, JVal.jstr cid), (fieldReviewText, JVal.jstr rt)])
          st deps).response
        = RestOutcome.ok ⟨cid, classifiedSeg rt deps.draw, classifiedConf rt deps.draw,
            (fetchedHistory st cid rt deps).length, (fetchedHistory st cid rt deps).take 2⟩
      ∧ (Classify cfg cid rt st deps).response
        = GrpcOutcome.ok ⟨cid, classifiedSeg rt deps.draw, classifiedConf rt deps.draw,
            (fetchedHistory st cid rt deps).length, (fetchedHistory st cid rt deps).take 2⟩
      ∧ fetchedHistory st cid rt deps = ownRow cid rt deps :: t
      ∧ (fetchedHistory st cid rt deps).Pairwise timeGe
      ∧ (fetchedHistory st cid rt deps).length ≤ 5
      ∧ ((fetchedHistory st cid rt deps).take 2).length ≤ 2 := by
  obtain ⟨t, ht⟩ := query_head_newest st cid (classifiedSeg rt deps.draw)
    (classifiedConf rt deps.draw) deps.now hfresh
  refine ⟨t, ?_, ?_, ht, ?_, ?_, ?_⟩
  · rw [classify_valid_eq cfg cid rt st deps h1 h2 h3 h4 h5,
      restProcess_ok_eq cid rt st deps hp hm hf]
  · rw [Classify_ok_eq cfg cid rt st deps h1 h2 h3 h4 h5 hp hm hf]
  · exact recentHistoryQuery_sorted (committedStore st cid rt deps) cid
  · exact recentHistoryQuery_len (committedStore st cid rt deps) cid
  · exact List.length_take_le 2 _

/-- C7: for every valid request (both fields non-empty strings after
trimming, review_text within the configured maximum) whose collaborators
and unit of work succeed, the pipeline returns a success response with
confidence in the unit interval and a non-empty segment label. -/
theorem validRequestSuccessBounds (cfg : Config) (cid rt : String) (st : Store) (deps : Deps)
    (h1 : cid ≠ "") (h2 : pyStrip cid ≠ "") (h3 : rt ≠ "") (h4 : pyStrip rt ≠ "")
    (h5 : rt.length ≤ cfg.maxTextLength)
    (hp : deps.preprocFails = false) (hm : deps.modelFails = false)
    (hf : deps.fault = DbFault.ok)
    (hdraw : ∀ a b : ℚ, a ≤ b → a ≤ deps.draw a b ∧ deps.draw a b ≤ b) :
    ∃ b, (classify cfg (some [(fieldCustomerId, JVal.jstr cid), (fieldReviewText, JVal.jstr rt)])
          st deps).response
        = RestOutcome.ok b
      ∧ 0 ≤ b.confidence ∧ b.confidence ≤ 1 ∧ b.classification ≠ "" := by
  refine ⟨⟨cid, classifiedSeg rt deps.draw, classifiedConf rt deps.draw,
    (fetchedHistory st cid rt deps).length, (fetchedHistory st cid rt deps).take 2⟩,
    ?_, ?_, ?_, ?_⟩
  · rw [classify_valid_eq cfg cid rt st deps h1 h2 h3 h4 h5,
      restProcess_ok_eq cid rt st deps hp hm hf]
  · exact (get_classification_spec (clean_text rt) deps.draw hdraw).1.1
  · exact (get_classification_spec (clean_text rt) deps.draw hdraw).1.2
  · exact (get_classification_spec (clean_text rt) deps.draw hdraw).2

/-- C8 counterexample: the claim covers the legacy optimised variant as
well, but that handler wraps the collaborator calls in no try/except, so
when preprocessing raises, the exception escapes the handler instead of
being mapped to an INTERNAL status with a generic message. -/
theorem legacyAdapterPropagatesInferenceError :
    ClassifyLegacy demoCid demoText true false demoDraw = GrpcOutcome.raised
      ∧ ∀ m : ErrMsg, ClassifyLegacy demoCid demoText true false demoDraw
        ≠ GrpcOutcome.abort RpcCode.internal m := by
  refine ⟨rfl, ?_⟩
  intro m hm
  simp [ClassifyLegacy] at hm

/-- C8 amended: in the baseline HTTP adapter and the current RPC adapter,
a collaborator exception on a valid request is mapped to HTTP 500 or RPC
INTERNAL with one of two fixed generic messages that carry no exception
detail; the legacy optimised RPC variant instead lets the exception
escape the handler. -/
theorem inferenceFailureGenericInternal (cfg : Config) (cid rt : String) (st stg : Store)
    (deps depsg : Deps)
    (h1 : cid ≠ "") (h2 : pyStrip cid ≠ "") (h3 : rt ≠ "") (h4 : pyStrip rt ≠ "")
    (h5 : rt.length ≤ cfg.maxTextLength)
    (hfail : deps.preprocFails = true ∨ deps.modelFails = true)
    (hfailg : depsg.preprocFails = true ∨ depsg.modelFails = true) :
    ((classify cfg (some [(fieldCustomerId, JVal.jstr cid), (fieldReviewText, JVal.jstr rt)])
          st deps).response = RestOutcome.err 500 ErrMsg.preprocessingFailed
      ∨ (classify cfg (some [(fieldCustomerId, JVal.jstr cid), (fieldReviewText, JVal.jstr rt)])
          st deps).response = RestOutcome.err 500 ErrMsg.modelClassificationFailed)
    ∧ ((Classify cfg cid rt stg depsg).response
          = GrpcOutcome.abort RpcCode.internal ErrMsg.preprocessingFailed
      ∨ (Classify cfg cid rt stg depsg).response
          = GrpcOutcome.abort RpcCode.internal ErrMsg.modelClassificationFailed)
    ∧ (ClassifyLegacy cid rt true false depsg.draw = GrpcOutcome.raised) := by
  refine ⟨?_, ?_, ?_⟩
  · rw [classify_valid_eq cfg cid rt st deps h1 h2 h3 h4 h5]
    unfold restProcess
    by_cases hpf : deps.preprocFails = true
    · left
      simp [hpf, restPure]
    · have hpf2 : deps.preprocFails = false := by
        revert hpf; cases deps.preprocFails <;> simp
      have hmf : deps.modelFails = true := hfail.resolve_left hpf
      right
      simp [hpf2, hmf, restPure]
  · rw [Classify_valid_eq cfg cid rt stg depsg h1 h2 h3 h4 h5]
    by_cases hpf : depsg.preprocFails = true
    · left
      simp [hpf, grpcPure]
    · have hpf2 : depsg.preprocFails = false := by
        revert hpf; cases depsg.preprocFails <;> simp
      have hmf : depsg.modelFails = true := hfailg.resolve_left hpf
      right
      simp [hpf2, hmf, grpcPure]
  · rfl

/-- C10: on every successful request of either adapter, history_count is
exactly the number of rows the LIMIT 5 read fetched; the fetched rows
include the row this request inserted; the count never exceeds 5; and
recent_classifications is the 2-capped prefix, of length
min 2 history_count. -/
theorem historyCountFromLimitQuery (cfg : Config) (cid rt : String) (st : Store) (deps : Deps)
    (h1 : cid ≠ "") (h2 : pyStrip cid ≠ "") (h3 : rt ≠ "") (h4 : pyStrip rt ≠ "")
    (h5 : rt.length ≤ cfg.maxTextLength)
    (hp : deps.preprocFails = false) (hm : deps.modelFails = false)
    (hf : deps.fault = DbFault.ok)
    (hfresh : ∀ r ∈ st.rows, r.processed_at < deps.now) :
    ∃ b g, (classify cfg (some [(fieldCustomerId, JVal.jstr cid), (fieldReviewText, JVal.jstr rt)])
          st deps).response
        = RestOutcome.ok b
      ∧ (Classify cfg cid rt st deps).response = GrpcOutcome.ok g
      ∧ b.history_count = (fetchedHistory st cid rt deps).length
      ∧ g.history_count = (fetchedHistory st cid rt deps).length
      ∧ ownRow cid rt deps ∈ fetchedHistory st cid rt deps
      ∧ b.history_count ≤ 5
      ∧ b.recent_classifications.length ≤ 2
      ∧ b.recent_classifications.length = min 2 b.history_count
      ∧ g.history_count ≤ 5
      ∧ g.recent_classifications.length ≤ 2
      ∧ g.recent_classifications.length = min 2 g.history_count := by
  obtain ⟨t, ht⟩ := query_head_newest st cid (classifiedSeg rt deps.draw)
    (classifiedConf rt deps.draw) deps.now hfresh
  refine ⟨⟨cid, classifiedSeg rt deps.draw, classifiedConf rt deps.draw,
    (fetchedHistory st cid rt deps).length, (fetchedHistory st cid rt deps).take 2⟩,
    ⟨cid, classifiedSeg rt deps.draw, classifiedConf rt deps.draw,
    (fetchedHistory st cid rt deps).length, (fetchedHistory st cid rt deps).take 2⟩,
    ?_, ?_, rfl, rfl, ?_, ?_, ?_, ?_, ?_, ?_, ?_⟩
  · rw [classify_valid_eq cfg cid rt st deps h1 h2 h3 h4 h5,
      restProcess_ok_eq cid rt st deps hp hm hf]
  · rw [Classify_ok_eq cfg cid rt st deps h1 h2 h3 h4 h5 hp hm hf]
  · rw [show fetchedHistory st cid rt deps = ownRow cid rt deps :: t from ht]
    exact List.mem_cons_self _ _
  · exact recentHistoryQuery_len (committedStore st cid rt deps) cid
  · exact List.length_take_le 2 _
  · exact List.length_take 2 _
  · exact recentHistoryQuery_len (committedStore st cid rt deps) cid
  · exact List.length_take_le 2 _
  · exact List.length_take 2 _

/-- C6 witness: two prior rows at times 1 and 2, insert at time 10; the
fetched history is the inserted row followed by the prior rows newest
first, and the response exposes its first two entries. -/
theorem historyReadOrderedCappedAmendedWitness :
    (demoCid ≠ "" ∧ pyStrip demoCid ≠ "" ∧ demoText ≠ "" ∧ pyStrip demoText ≠ ""
        ∧ demoText.length ≤ cfgDefault.maxTextLength
        ∧ (∀ r ∈ demoStore2.rows, r.processed_at < demoDepsOk.now))
      ∧ (∃ t, (classify cfgDefault (some [(fieldCustomerId, JVal.jstr demoCid),
              (fieldReviewText, JVal.jstr demoText)]) demoStore2 demoDepsOk).response
          = RestOutcome.ok ⟨demoCid, classifiedSeg demoText demoDepsOk.draw,
              classifiedConf demoText demoDepsOk.draw,
              (fetchedHistory demoStore2 demoCid demoText demoDepsOk).length,
              (fetchedHistory demoStore2 demoCid demoText demoDepsOk).take 2⟩
        ∧ (Classify cfgDefault demoCid demoText demoStore2 demoDepsOk).response
          = GrpcOutcome.ok ⟨demoCid, classifiedSeg demoText demoDepsOk.draw,
              classifiedConf demoText demoDepsOk.draw,
              (fetchedHistory demoStore2 demoCid demoText demoDepsOk).length,
              (fetchedHistory demoStore2 demoCid demoText demoDepsOk).take 2⟩
        ∧ fetchedHistory demoStore2 demoCid demoText demoDepsOk
            = ownRow demoCid demoText demoDepsOk :: t
        ∧ (fetchedHistory demoStore2 demoCid demoText demoDepsOk).Pairwise timeGe
        ∧ (fetchedHistory demoStore2 demoCid demoText demoDepsOk).length ≤ 5
        ∧ ((fetchedHistory demoStore2 demoCid demoText demoDepsOk).take 2).length ≤ 2) :=
  ⟨⟨by decide, by decide, by decide, by decide, by decide, by decide⟩,
    historyReadOrderedCappedAmended cfgDefault demoCid demoText demoStore2 demoDepsOk
      (by decide) (by decide) (by decide) (by decide) (by decide) rfl rfl rfl (by decide)⟩

/-- C7 witness: a concrete valid request against the empty store with a
lower-bound draw. -/
theorem validRequestSuccessBoundsWitness :
    (demoCid ≠ "" ∧ pyStrip demoCid ≠ "" ∧ demoText ≠ "" ∧ pyStrip demoText ≠ ""
        ∧ demoText.length ≤ cfgDefault.maxTextLength
        ∧ (∀ a b : ℚ, a ≤ b → a ≤ demoDepsOk.draw a b ∧ demoDepsOk.draw a b ≤ b))
      ∧ (∃ b, (classify cfgDefault (some [(fieldCustomerId, JVal.jstr demoCid),
              (fieldReviewText, JVal.jstr demoText)]) emptyStore demoDepsOk).response
          = RestOutcome.ok b
        ∧ 0 ≤ b.confidence ∧ b.confidence ≤ 1 ∧ b.classification ≠ "") :=
  ⟨⟨by decide, by decide, by decide, by decide, by decide, fun a b h => ⟨le_refl a, h⟩⟩,
    validRequestSuccessBounds cfgDefault demoCid demoText emptyStore demoDepsOk
      (by decide) (by decide) (by decide) (by decide) (by decide) rfl rfl rfl
      (fun a b h => ⟨le_refl a, h⟩)⟩

/-- C8 witness: preprocessing raises on a concrete valid request; both
current adapters answer with their fixed generic internal error. -/
theorem inferenceFailureGenericInternalWitness :
    (demoCid ≠ "" ∧ pyStrip demoCid ≠ "" ∧ demoText ≠ "" ∧ pyStrip demoText ≠ ""
        ∧ demoText.length ≤ cfgDefault.maxTextLength
        ∧ (demoDepsPre.preprocFails = true ∨ demoDepsPre.modelFails = true))
      ∧ (((classify cfgDefault (some [(fieldCustomerId, JVal.jstr demoCid),
              (fieldReviewText, JVal.jstr demoText)]) emptyStore demoDepsPre).response
            = RestOutcome.err 500 ErrMsg.preprocessingFailed
          ∨ (classify cfgDefault (some [(fieldCustomerId, JVal.jstr demoCid),
              (fieldReviewText, JVal.jstr demoText)]) emptyStore demoDepsPre).response
            = RestOutcome.err 500 ErrMsg.modelClassificationFailed)
        ∧ ((Classify cfgDefault demoCid demoText emptyStore demoDepsPre).response
              = GrpcOutcome.abort RpcCode.internal ErrMsg.preprocessingFailed
          ∨ (Classify cfgDefault demoCid demoText emptyStore demoDepsPre).response
              = GrpcOutcome.abort RpcCode.internal ErrMsg.modelClassificationFailed)
        ∧ (ClassifyLegacy demoCid demoText true false demoDepsPre.draw = GrpcOutcome.raised)) :=
  ⟨⟨by decide, by decide, by decide, by decide, by decide, Or.inl rfl⟩,
    inferenceFailureGenericInternal cfgDefault demoCid demoText emptyStore emptyStore
      demoDepsPre demoDepsPre (by decide) (by decide) (by decide) (by decide) (by decide)
      (Or.inl rfl) (Or.inl rfl)⟩

/-- C10 witness: four prior rows plus the inserted one make the LIMIT 5
read return 5 rows, so history_count is 5 while recent_classifications
holds only 2 entries. -/
theorem historyCountFromLimitQueryWitness :
    (demoCid ≠ "" ∧ pyStrip demoCid ≠ "" ∧ demoText ≠ "" ∧ pyStrip demoText ≠ ""
        ∧ demoText.length ≤ cfgDefault.maxTextLength
        ∧ (∀ r ∈ demoStore4.rows, r.processed_at < demoDepsOk.now))
      ∧ (∃ b g, (classify cfgDefault (some [(fieldCustomerId, JVal.jstr demoCid),
              (fieldReviewText, JVal.jstr demoText)]) demoStore4 demoDepsOk).response
          = RestOutcome.ok b
        ∧ (Classify cfgDefault demoCid demoText demoStore4 demoDepsOk).response
          = GrpcOutcome.ok g
        ∧ b.history_count = (fetchedHistory demoStore4 demoCid demoText demoDepsOk).length
        ∧ g.history_count = (fetchedHistory demoStore4 demoCid demoText demoDepsOk).length
        ∧ ownRow demoCid demoText demoDepsOk ∈ fetchedHistory demoStore4 demoCid demoText demoDepsOk
        ∧ b.history_count ≤ 5
        ∧ b.recent_classifications.length ≤ 2
        ∧ b.recent_classifications.length = min 2 b.history_count
        ∧ g.history_count ≤ 5
        ∧ g.recent_classifications.length ≤ 2
        ∧ g.recent_classifications.length = min 2 g.history_count)
      ∧ (fetchedHistory demoStore4 demoCid demoText demoDepsOk).length = 5
      ∧ ((fetchedHistory demoStore4 demoCid demoText demoDepsOk).take 2).length = 2 :=
  ⟨⟨by decide, by decide, by decide, by decide, by decide, by decide⟩,
    historyCountFromLimitQuery cfgDefault demoCid demoText demoStore4 demoDepsOk
      (by decide) (by decide) (by decide) (by decide) (by decide) rfl rfl rfl (by decide),
    rfl, rfl⟩
